import Mathlib

/-
Verification of the escrow settlement / reconciliation core of the
hillside-api service (capstone-hillside-hidden-resort repository).

The Python source is shallowly embedded: pure functions become Lean
functions; the Supabase database is an explicit list of reservation rows;
the web3 RPC surface (connectivity, keccak, receipts, event decoding,
contract reads) is passed in as explicit oracle data, since it is an
external collaborator of the code under verification.  Python exceptions
of the uniform RuntimeError kind become `Except String`.
-/

/-! ## Python string semantics helpers -/

/-- Python `a or dflt` on an optional string field of a DB row:
`None` and the empty string are falsy. -/
def pyStrOr (v : Option String) (dflt : String) : String :=
  match v with
  | some s => if s = "" then dflt else s
  | none => dflt

/-- Python truthiness of an optional string (`x if x else None`). -/
def pyTruthyOpt (v : Option String) : Option String :=
  match v with
  | some s => if s = "" then none else some s
  | none => none

/-- Python `a or b` on two plain strings (empty string is falsy). -/
def pyOrStr (a b : String) : String :=
  if a = "" then b else a

/-- Python `a or b` on two integers (`0` is falsy). -/
def pyOrInt (a b : Int) : Int :=
  if a = 0 then b else a

/-- Character-level lowering, matching Python `str.lower()` on the ASCII
keys this code base uses. -/
def pyLower (s : String) : String :=
  String.mk (s.data.map Char.toLower)

/-- Python `str.strip()`: drop leading and trailing whitespace. -/
def pyStrip (s : String) : String :=
  String.mk (((s.data.dropWhile Char.isWhitespace).reverse.dropWhile Char.isWhitespace).reverse)

/-- Splitting accumulator for `pySplitComma`. -/
def pySplitCommaAux : List Char → List Char → List String
  | [], cur => [String.mk cur.reverse]
  | c :: rest, cur =>
    if c = ',' then String.mk cur.reverse :: pySplitCommaAux rest []
    else pySplitCommaAux rest (c :: cur)

/-- Python `raw.split(",")`. -/
def pySplitComma (s : String) : List String :=
  pySplitCommaAux s.data []

/-- Python `s.startswith(pre)`. -/
def pyStartsWith (s pre : String) : Bool :=
  pre.data.isPrefixOf s.data

/-! ## Chain registry (`app/core/chains.py`) -/

/-- Embeds `ChainConfig` dataclass from `app/core/chains.py`. -/
structure ChainConfig where
  key : String
  chain_id : Int
  rpc_url : String
  escrow_contract_address : String
  guest_pass_contract_address : String
  signer_private_key : String
  explorer_base_url : String
  enabled : Bool
deriving Repr, DecidableEq, Inhabited

/-- The configuration fields of `app/core/config.py` that the escrow core
reads.  All of them are plain typed values with non-None defaults in the
source (pydantic settings), so attribute access never fails. -/
structure Settings where
  chain_active_key : String := "sepolia"
  chain_allowed_keys : String := "sepolia,amoy"
  evm_rpc_url_sepolia : String := ""
  evm_rpc_url_amoy : String := ""
  polygon_rpc_url_amoy : String := ""
  chain_id_sepolia : Int := 11155111
  chain_id_amoy : Int := 80002
  chain_id : Int := 80002
  escrow_contract_address_sepolia : String := ""
  escrow_contract_address_amoy : String := ""
  escrow_contract_address : String := ""
  guest_pass_contract_address_sepolia : String := ""
  guest_pass_contract_address_amoy : String := ""
  escrow_signer_private_key_sepolia : String := ""
  escrow_signer_private_key_amoy : String := ""
  escrow_signer_private_key : String := ""
  explorer_base_url_sepolia : String := ""
  explorer_base_url_amoy : String := ""
  escrow_lock_amount_wei : Int := 1
  escrow_reconciliation_limit : Nat := 200
  escrow_reconciliation_chain_key : String := ""
  escrow_reconciliation_alert_mismatch_threshold : Int := 1
  escrow_reconciliation_alert_missing_onchain_threshold : Int := 1
  escrow_reconciliation_alert_skipped_threshold : Int := 1
  feature_escrow_reconciliation_scheduler : Bool := false
  escrow_reconciliation_interval_sec : Int := 300
deriving Repr, DecidableEq, Inhabited

/-- Embeds `_normalize_keys` from `app/core/chains.py`: split the allow-list on
commas, strip, drop empties, lower-case.  (The Python set is modelled as
a list; only membership is ever used.) -/
def normalize_keys (raw : String) : List String :=
  (((pySplitComma raw).map pyStrip).filter (fun v => v ≠ "")).map pyLower

/-- Embeds `get_chain_registry` from `app/core/chains.py`: the two-network
registry, in the Python dict insertion order (sepolia first, amoy
second). -/
def get_chain_registry (s : Settings) : List (String × ChainConfig) :=
  let allowed_keys := normalize_keys s.chain_allowed_keys
  let sepolia_rpc := pyStrip (pyOrStr s.evm_rpc_url_sepolia "")
  let amoy_rpc := pyStrip (pyOrStr (pyOrStr s.evm_rpc_url_amoy s.polygon_rpc_url_amoy) "")
  let sepolia_contract := pyStrip (pyOrStr s.escrow_contract_address_sepolia "")
  let amoy_contract := pyStrip (pyOrStr s.escrow_contract_address_amoy
    (if pyLower s.chain_active_key = "amoy" then s.escrow_contract_address else ""))
  let sepolia_guest_pass := pyStrip (pyOrStr s.guest_pass_contract_address_sepolia "")
  let amoy_guest_pass := pyStrip (pyOrStr s.guest_pass_contract_address_amoy "")
  let sepolia_signer := pyStrip (pyOrStr s.escrow_signer_private_key_sepolia s.escrow_signer_private_key)
  let amoy_signer := pyStrip (pyOrStr s.escrow_signer_private_key_amoy s.escrow_signer_private_key)
  [ ("sepolia",
      { key := "sepolia"
        chain_id := s.chain_id_sepolia
        rpc_url := sepolia_rpc
        escrow_contract_address := sepolia_contract
        guest_pass_contract_address := sepolia_guest_pass
        signer_private_key := sepolia_signer
        explorer_base_url := pyStrip (pyOrStr s.explorer_base_url_sepolia "")
        enabled := allowed_keys.contains "sepolia" }),
    ("amoy",
      { key := "amoy"
        chain_id := pyOrInt s.chain_id_amoy s.chain_id
        rpc_url := amoy_rpc
        escrow_contract_address := amoy_contract
        guest_pass_contract_address := amoy_guest_pass
        signer_private_key := amoy_signer
        explorer_base_url := pyStrip (pyOrStr s.explorer_base_url_amoy "")
        enabled := allowed_keys.contains "amoy" }) ]

/-- Python `registry[k]` / `k in registry` on the registry dict. -/
def registry_lookup (reg : List (String × ChainConfig)) (k : String) : Option ChainConfig :=
  (reg.find? (fun p => p.1 = k)).map (fun p => p.2)

/-- Embeds `get_active_chain` from `app/core/chains.py`.  The final arm models
`next(iter(registry.values()))`; the registry built by
`get_chain_registry` is never empty, so the `[]` case is unreachable. -/
def get_active_chain (s : Settings) : ChainConfig :=
  let reg := get_chain_registry s
  let active_key := pyLower (pyStrip (pyOrStr s.chain_active_key ""))
  match registry_lookup reg active_key with
  | some c => c
  | none =>
    match registry_lookup reg "sepolia" with
    | some c => c
    | none =>
      match reg with
      | [] => default
      | p :: _ => p.2

/-- Modelled from the spec: the "first enabled network" of the registry
(the spec claims `getActiveChain()` falls back to it when the configured
active key is invalid).  Not present in the source; used only to compare
the spec wording with `get_active_chain`. -/
def first_enabled_chain (reg : List (String × ChainConfig)) : Option ChainConfig :=
  (reg.find? (fun p => p.2.enabled)).map (fun p => p.2)

/-! ## Reservation rows and the reconciliation candidate query
(`app/integrations/supabase_client.py`) -/

/-- The columns of a `reservations` row that the escrow core reads
(`ESCROW_RECONCILIATION_SELECT` plus the shadow-cleanup columns).
Columns that may be NULL in the database are `Option`. -/
structure ReservationRow where
  reservation_id : String
  reservation_code : String := ""
  escrow_state : Option String := none
  chain_key : Option String := none
  chain_id : Option Int := none
  escrow_contract_address : Option String := none
  chain_tx_hash : Option String := none
  onchain_booking_id : Option String := none
  escrow_event_index : Option Int := none
deriving Repr, DecidableEq, Inhabited

/-- The `in_("escrow_state", [...])` filter list of
`list_reservations_for_escrow_reconciliation`. -/
def reconCandidateStates : List String :=
  ["pending_lock", "locked", "released", "refunded", "failed"]

/-- The row filter of `list_reservations_for_escrow_reconciliation`:
`.eq("chain_key", chain_key)` and `.in_("escrow_state", [...])` (SQL
equality never matches a NULL column). -/
def escrow_candidate (chain_key : String) (r : ReservationRow) : Bool :=
  r.chain_key == some chain_key &&
    (match r.escrow_state with
     | some st => reconCandidateStates.contains st
     | none => false)

/-- Embeds `list_reservations_for_escrow_reconciliation` from
`app/integrations/supabase_client.py`, over an explicit database `db`
given in the created_at-descending order the query requests: the page
`range(offset, offset + limit - 1)` of the filtered rows, together with
the exact count of all filtered rows (`count="exact"` counts the whole
filtered set, not the page). -/
def list_reservations_for_escrow_reconciliation (db : List ReservationRow)
    (chain_key : String) (limit offset : Nat) : List ReservationRow × Nat :=
  let filtered := db.filter (escrow_candidate chain_key)
  ((filtered.drop offset).take limit, filtered.length)

/-! ## On-chain record reading and summaries -/

/-- Embeds `OnchainEscrowRecord` dataclass from
`app/integrations/escrow_chain.py`. -/
structure OnchainEscrowRecord where
  booking_id : String
  state : String
  amount_wei : Int
deriving Repr, DecidableEq, Inhabited

/-- A Python exception as the escrow code distinguishes it: the
`runtimeError` kind is what the code itself raises (and what the two
reconciliation loops catch with `except RuntimeError`); the
`otherError` kind covers everything else that can escape the Record
Reader — ValueError-family errors from `Web3.to_bytes` on a malformed
stored id or from `to_checksum_address` on a bad configured address,
and transport errors raised by `escrows(...).call()` after
`is_connected()` passed.  Only the first kind is caught by the loops;
the second aborts the batch. -/
inductive PyErr where
  | runtimeError (msg : String)
  | otherError (msg : String)
deriving Repr, DecidableEq

/-- Python `str(exc)`: the message of either exception kind. -/
def PyErr.message : PyErr → String
  | .runtimeError m => m
  | .otherError m => m

/-- The Record Reader as the reconciliation loops see it: a function of
the reservation id and the stored on-chain booking id, returning either
an `OnchainEscrowRecord` or a `PyErr` — `runtimeError` for the uniform
kind `read_escrow_record_onchain` itself raises (missing dependency,
missing configuration, unreachable RPC), `otherError` for the
non-RuntimeError exceptions its library calls can raise. -/
def ReaderOracle : Type :=
  String → Option String → Except PyErr OnchainEscrowRecord

/-- Embeds `EscrowReconciliationSummary` pydantic model from
`app/schemas/common.py` (the Python field `match` is a Lean keyword and
is named `match_count` here). -/
structure EscrowReconciliationSummary where
  total : Nat := 0
  match_count : Nat := 0
  mismatch : Nat := 0
  missing_onchain : Nat := 0
  skipped : Nat := 0
  alert : Bool := false
deriving Repr, DecidableEq, Inhabited

/-- The sum of the four per-row classification counters of a summary. -/
def sumParts (sm : EscrowReconciliationSummary) : Nat :=
  sm.match_count + sm.mismatch + sm.missing_onchain + sm.skipped

/-! ## Reconciliation engine (`_build_summary` in
`app/observability/escrow_reconciliation_monitor.py`) -/

/-- One iteration of the `for row in rows` loop of `_build_summary`:
the `except RuntimeError` arm counts a reader RuntimeError as skipped
and lets the loop continue; a reader exception of any other kind is
not caught and propagates; otherwise the row is classified
missing_onchain / match / mismatch against
`str(row.get("escrow_state") or "none")`. -/
def classify_step (reader : ReaderOracle) (acc : EscrowReconciliationSummary)
    (row : ReservationRow) : Except PyErr EscrowReconciliationSummary :=
  match reader row.reservation_id row.onchain_booking_id with
  | .error (.runtimeError _) => .ok { acc with skipped := acc.skipped + 1 }
  | .error (.otherError m) => .error (.otherError m)
  | .ok onchain =>
    let db_state := pyStrOr row.escrow_state "none"
    if onchain.state = "none" then .ok { acc with missing_onchain := acc.missing_onchain + 1 }
    else if db_state = onchain.state then .ok { acc with match_count := acc.match_count + 1 }
    else .ok { acc with mismatch := acc.mismatch + 1 }

/-- The `for row in rows` loop of `_build_summary`: each row goes
through `classify_step`; an uncaught (non-RuntimeError) exception
aborts the rest of the loop. -/
def classify_rows (reader : ReaderOracle) :
    List ReservationRow → EscrowReconciliationSummary → Except PyErr EscrowReconciliationSummary
  | [], acc => .ok acc
  | row :: rest, acc =>
    match classify_step reader acc row with
    | .error e => .error e
    | .ok acc2 => classify_rows reader rest acc2

/-- Embeds `_build_summary` from
`app/observability/escrow_reconciliation_monitor.py`: registry and
enablement checks (RuntimeError on failure), then one page of
candidates from offset 0, the per-row classification loop (which a
non-RuntimeError reader exception aborts), and finally
`summary.alert = (mismatch + missing_onchain) > 0`. -/
def build_summary (s : Settings) (db : List ReservationRow) (reader : ReaderOracle)
    (chain_key : String) (limit : Nat) : Except PyErr EscrowReconciliationSummary :=
  match registry_lookup (get_chain_registry s) chain_key with
  | none => .error (.runtimeError "Unsupported chain_key for reconciliation scheduler.")
  | some chain =>
    if !chain.enabled then .error (.runtimeError "Chain is disabled.")
    else
      let page := list_reservations_for_escrow_reconciliation db chain_key limit 0
      match classify_rows reader page.1 { total := page.2 } with
      | .error e => .error e
      | .ok summary =>
        .ok { summary with alert := decide (0 < summary.mismatch + summary.missing_onchain) }

/-! ## Operator reconciliation-listing endpoint
(`get_escrow_reconciliation` in `app/api/v2/routes/escrow.py`) -/

/-- Embeds `EscrowReconciliationItem` pydantic model from
`app/schemas/common.py`, as populated by the endpoint. -/
structure EscrowReconciliationItem where
  reservation_id : String
  reservation_code : String
  db_escrow_state : String
  chain_key : Option String
  chain_id : Option Int
  chain_tx_hash : Option String
  onchain_booking_id : Option String
  onchain_state : Option String
  onchain_amount_wei : Option String
  result : String
  reason : Option String
deriving Repr, DecidableEq, Inhabited

/-- Embeds `EscrowReconciliationResponse` pydantic model from
`app/schemas/common.py`. -/
structure EscrowReconciliationResponse where
  items : List EscrowReconciliationItem
  count : Nat
  limit : Nat
  offset : Nat
  has_more : Bool
  summary : EscrowReconciliationSummary
deriving Repr, DecidableEq, Inhabited

/-- One iteration of the `for row in rows` loop of the endpoint
`get_escrow_reconciliation`: the `except RuntimeError` arm reports a
reader RuntimeError as a skipped item (with the stored booking id if
truthy) and lets the loop continue; a reader exception of any other
kind is not caught and propagates; otherwise the row is classified and
an item with the on-chain data is appended. -/
def endpoint_step (reader : ReaderOracle)
    (acc : List EscrowReconciliationItem × EscrowReconciliationSummary)
    (row : ReservationRow) :
    Except PyErr (List EscrowReconciliationItem × EscrowReconciliationSummary) :=
  let db_state := pyStrOr row.escrow_state "none"
  match reader row.reservation_id row.onchain_booking_id with
  | .error (.runtimeError m) =>
    .ok (acc.1 ++ [{ reservation_id := row.reservation_id
                     reservation_code := row.reservation_code
                     db_escrow_state := db_state
                     chain_key := row.chain_key
                     chain_id := row.chain_id
                     chain_tx_hash := row.chain_tx_hash
                     onchain_booking_id := pyTruthyOpt row.onchain_booking_id
                     onchain_state := none
                     onchain_amount_wei := none
                     result := "skipped"
                     reason := some m }],
         { acc.2 with skipped := acc.2.skipped + 1 })
  | .error (.otherError m) => .error (.otherError m)
  | .ok onchain =>
    let classified :=
      if onchain.state = "none" then
        ("missing_onchain", some "No escrow record found on-chain for booking id.",
         { acc.2 with missing_onchain := acc.2.missing_onchain + 1 })
      else if db_state = onchain.state then
        ("match", (none : Option String),
         { acc.2 with match_count := acc.2.match_count + 1 })
      else
        ("mismatch", some ("DB escrow_state " ++ db_state ++ " differs from on-chain state " ++ onchain.state ++ "."),
         { acc.2 with mismatch := acc.2.mismatch + 1 })
    .ok (acc.1 ++ [{ reservation_id := row.reservation_id
                     reservation_code := row.reservation_code
                     db_escrow_state := db_state
                     chain_key := row.chain_key
                     chain_id := row.chain_id
                     chain_tx_hash := row.chain_tx_hash
                     onchain_booking_id :=
                       match pyTruthyOpt row.onchain_booking_id with
                       | some s => some s
                       | none => some onchain.booking_id
                     onchain_state := some onchain.state
                     onchain_amount_wei := some (toString onchain.amount_wei)
                     result := classified.1
                     reason := classified.2.1 }],
         classified.2.2)

/-- The `for row in rows` loop of the endpoint: each row goes through
`endpoint_step`; an uncaught (non-RuntimeError) exception aborts the
rest of the loop and escapes the route. -/
def endpoint_rows (reader : ReaderOracle) :
    List ReservationRow → List EscrowReconciliationItem × EscrowReconciliationSummary →
    Except PyErr (List EscrowReconciliationItem × EscrowReconciliationSummary)
  | [], acc => .ok acc
  | row :: rest, acc =>
    match endpoint_step reader acc row with
    | .error e => .error e
    | .ok acc2 => endpoint_rows reader rest acc2

/-- Embeds `get_escrow_reconciliation` from `app/api/v2/routes/escrow.py`
(auth dependency elided).  Errors: the route's deliberate HTTP error
responses (unknown key, disabled chain) are modelled as `runtimeError`
values; a non-RuntimeError exception escaping the row loop propagates
as `otherError` (in the service it becomes an unhandled 500). -/
def get_escrow_reconciliation (s : Settings) (db : List ReservationRow)
    (reader : ReaderOracle) (chain_key : Option String) (limit offset : Nat) :
    Except PyErr EscrowReconciliationResponse :=
  let registry := get_chain_registry s
  let active_chain := get_active_chain s
  let resolved_key := pyLower (pyStrOr chain_key active_chain.key)
  match registry_lookup registry resolved_key with
  | none => .error (.runtimeError "Unsupported chain_key.")
  | some chain =>
    if !chain.enabled then .error (.runtimeError "Chain is disabled.")
    else
      let page := list_reservations_for_escrow_reconciliation db resolved_key limit offset
      match endpoint_rows reader page.1 ([], { total := page.2 }) with
      | .error e => .error e
      | .ok folded =>
        .ok { items := folded.1
              count := page.2
              limit := limit
              offset := offset
              has_more := decide (offset + folded.1.length < page.2)
              summary :=
                { total := folded.2.total
                  match_count := folded.2.match_count
                  mismatch := folded.2.mismatch
                  missing_onchain := folded.2.missing_onchain
                  skipped := folded.2.skipped
                  alert := decide (0 < folded.2.mismatch + folded.2.missing_onchain) } }

/-! ## Reconciliation monitor state
(`_MonitorState` in `app/observability/escrow_reconciliation_monitor.py`) -/

/-- The three alert thresholds held in the monitor state dict. -/
structure AlertThresholds where
  mismatch : Int
  missing_onchain : Int
  skipped : Int
deriving Repr, DecidableEq, Inhabited

/-- The `_MonitorState` dict (one process-lifetime singleton; the
mutex is irrelevant in this sequential embedding, and `snapshot()` is a
plain copy, i.e. the state itself).  Timestamps are the opaque ISO
strings the code stores; `round(duration_ms, 2)` is modelled by storing
the supplied duration value. -/
structure MonitorState where
  enabled : Bool
  running : Bool
  interval_sec : Int
  limit : Nat
  chain_key : Option String
  last_started_at : Option String
  last_finished_at : Option String
  last_success_at : Option String
  last_duration_ms : Option Int
  runs_total : Nat
  consecutive_failures : Nat
  last_error : Option String
  last_summary : Option EscrowReconciliationSummary
  alert_thresholds : AlertThresholds
  alert_active : Bool
deriving Repr, DecidableEq, Inhabited

/-- Embeds `_MonitorState.__init__`: the initial state built from settings. -/
def monitor_init (s : Settings) : MonitorState :=
  { enabled := s.feature_escrow_reconciliation_scheduler
    running := false
    interval_sec := s.escrow_reconciliation_interval_sec
    limit := s.escrow_reconciliation_limit
    chain_key := none
    last_started_at := none
    last_finished_at := none
    last_success_at := none
    last_duration_ms := none
    runs_total := 0
    consecutive_failures := 0
    last_error := none
    last_summary := none
    alert_thresholds :=
      { mismatch := s.escrow_reconciliation_alert_mismatch_threshold
        missing_onchain := s.escrow_reconciliation_alert_missing_onchain_threshold
        skipped := s.escrow_reconciliation_alert_skipped_threshold }
    alert_active := false }

/-- Embeds `_MonitorState.begin_run`. -/
def begin_run (now : String) (chain_key : String) (st : MonitorState) : MonitorState :=
  { st with running := true
            chain_key := some chain_key
            last_started_at := some now
            last_error := none }

/-- Embeds `_MonitorState.complete_success`: resets failures, stores the
summary, and recomputes `alert_active` from the three thresholds (alert
if any single count meets or exceeds its threshold). -/
def complete_success (now : String) (duration_ms : Int)
    (summary : EscrowReconciliationSummary) (st : MonitorState) : MonitorState :=
  let thresholds := st.alert_thresholds
  let alert_active :=
    decide ((summary.mismatch : Int) ≥ thresholds.mismatch) ||
    decide ((summary.missing_onchain : Int) ≥ thresholds.missing_onchain) ||
    decide ((summary.skipped : Int) ≥ thresholds.skipped)
  { st with running := false
            last_finished_at := some now
            last_success_at := some now
            last_duration_ms := some duration_ms
            runs_total := st.runs_total + 1
            consecutive_failures := 0
            last_summary := some summary
            alert_active := alert_active
            last_error := none }

/-- Embeds `_MonitorState.complete_failure`: increments
`consecutive_failures`, records the error, and unconditionally raises
the alert. -/
def complete_failure (now : String) (duration_ms : Int) (error : String)
    (st : MonitorState) : MonitorState :=
  { st with running := false
            last_finished_at := some now
            last_duration_ms := some duration_ms
            runs_total := st.runs_total + 1
            consecutive_failures := st.consecutive_failures + 1
            last_error := some error
            alert_active := true }

/-- Embeds `_resolve_chain_key` from the monitor module:
`(settings.escrow_reconciliation_chain_key or "").strip().lower()` with
fallback to the active chain key. -/
def resolve_chain_key (s : Settings) : String :=
  let configured := pyLower (pyStrip (pyOrStr s.escrow_reconciliation_chain_key ""))
  pyOrStr configured (get_active_chain s).key

/-- Embeds `run_escrow_reconciliation_once_now` from the monitor module:
begin a run, invoke `_build_summary`, route the outcome to
`complete_success` / `complete_failure` (the `except Exception` arm
catches every engine failure), and return the resulting snapshot.
The function is total: every outcome of the engine produces a
snapshot, never an exception. -/
def run_escrow_reconciliation_once_now (s : Settings) (db : List ReservationRow)
    (reader : ReaderOracle) (now : String) (duration_ms : Int)
    (st : MonitorState) : MonitorState :=
  let chain_key := resolve_chain_key s
  let limit := s.escrow_reconciliation_limit
  let st1 := begin_run now chain_key st
  match build_summary s db reader chain_key limit with
  | .ok summary => complete_success now duration_ms summary st1
  | .error exc => complete_failure now duration_ms exc.message st1

/-! ## Settlement client (`app/integrations/escrow_chain.py`)

The web3 surface is an explicit environment: keccak and the
bytes32/hex conversions are opaque injective-by-use functions, the
transaction pipeline (nonce, fees, build, sign, submit, receipt wait)
is summarised by the submitted transaction hash and by the receipt
outcome, and event-log decoding is an `Except` oracle. -/

/-- One decoded contract event, as `process_receipt` returns it. -/
structure DecodedEvent where
  logIndex : Int
deriving Repr, DecidableEq, Inhabited

/-- The external web3 world one settlement/read call observes.
`to_bytes` models `Web3.to_bytes(hexstr=...)`, which raises a
ValueError-family (non-RuntimeError) error on malformed hex;
`checksum_addr` models `Web3.to_checksum_address`, which raises the
same family on an invalid address; `escrows_call` models
`escrows(bookingId).call()`, whose transport failures after a passed
`is_connected()` are likewise non-RuntimeError.  The signing-account
derivation and the transaction pipeline (nonce, fees, build, sign,
submit, receipt wait) are summarised by `tx_hash` and
`receipt_status`. -/
structure ChainEnv where
  web3_available : Bool
  connected : Bool
  keccak_bytes : String → String
  to_bytes : String → Except String String
  to_hex : String → String
  checksum_addr : String → Except String String
  tx_hash : String
  receipt_status : Except String (Option Int)
  decode_locked : Except String (List DecodedEvent)
  decode_released : Except String (List DecodedEvent)
  decode_refunded : Except String (List DecodedEvent)
  escrows_call : String → Except String (List Int)

/-- Embeds `EscrowLockResult` dataclass from `app/integrations/escrow_chain.py`. -/
structure EscrowLockResult where
  tx_hash : String
  onchain_booking_id : String
  event_index : Int
deriving Repr, DecidableEq, Inhabited

/-- Embeds `EscrowSettlementResult` dataclass from
`app/integrations/escrow_chain.py`. -/
structure EscrowSettlementResult where
  tx_hash : String
  onchain_booking_id : String
  event_index : Int
deriving Repr, DecidableEq, Inhabited

/-- Embeds `_resolve_booking_id_bytes` from `app/integrations/escrow_chain.py`:
a truthy supplied id starting with "0x" is decoded directly with
`w3.to_bytes(hexstr=...)` — which raises (a non-RuntimeError) on
malformed hex — and echoed lower-cased; anything else falls back to
the keccak hash of the reservation id, which cannot fail. -/
def resolve_booking_id_bytes (env : ChainEnv) (reservation_id : String)
    (onchain_booking_id : Option String) : Except String (String × String) :=
  match onchain_booking_id with
  | some s =>
    if s ≠ "" && pyStartsWith s "0x" then
      match env.to_bytes s with
      | .error m => .error m
      | .ok b => .ok (b, pyLower s)
    else .ok (env.keccak_bytes reservation_id, env.to_hex (env.keccak_bytes reservation_id))
  | none => .ok (env.keccak_bytes reservation_id, env.to_hex (env.keccak_bytes reservation_id))

/-- The decode-with-fallback block shared by the three settlement
operations: `event_index = 0`; on successful decoding of a non-empty
event list take `int(events[0]["logIndex"])`; any decoding exception
keeps 0. -/
def event_index_of (decoded : Except String (List DecodedEvent)) : Int :=
  match decoded with
  | .error _ => 0
  | .ok events =>
    match events with
    | [] => 0
    | ev :: _ => ev.logIndex

/-- Embeds `lock_reservation_escrow_onchain` from
`app/integrations/escrow_chain.py`: dependency, configuration and
connectivity guards, keccak-derived booking id (lock never consumes a
stored id), receipt wait, revert check, then event decoding with the
index-0 fallback. -/
def lock_reservation_escrow_onchain (env : ChainEnv) (chain : ChainConfig)
    (reservation_id : String) : Except String EscrowLockResult :=
  if !env.web3_available then .error "Missing web3 dependencies."
  else if chain.rpc_url = "" then .error "Active chain RPC URL is not configured."
  else if chain.escrow_contract_address = "" then .error "Active chain contract address is not configured."
  else if chain.signer_private_key = "" then .error "Active chain signer private key is not configured."
  else if !env.connected then .error "Unable to connect to RPC."
  else
    match env.checksum_addr chain.escrow_contract_address with
    | .error m => .error m
    | .ok _ =>
      let booking_id := env.keccak_bytes reservation_id
      match env.receipt_status with
      | .error e => .error e
      | .ok status =>
        if status.getD 0 ≠ 1 then .error "On-chain escrow lock transaction reverted."
        else
          .ok { tx_hash := env.tx_hash
                onchain_booking_id := env.to_hex booking_id
                event_index := event_index_of env.decode_locked }

/-- Embeds `release_reservation_escrow_onchain` from
`app/integrations/escrow_chain.py`. -/
def release_reservation_escrow_onchain (env : ChainEnv) (chain : ChainConfig)
    (reservation_id : String) (onchain_booking_id : Option String) :
    Except String EscrowSettlementResult :=
  if !env.web3_available then .error "Missing web3 dependencies."
  else if chain.rpc_url = "" then .error "Active chain RPC URL is not configured."
  else if chain.escrow_contract_address = "" then .error "Active chain contract address is not configured."
  else if chain.signer_private_key = "" then .error "Active chain signer private key is not configured."
  else if !env.connected then .error "Unable to connect to RPC."
  else
    match env.checksum_addr chain.escrow_contract_address with
    | .error m => .error m
    | .ok _ =>
      match resolve_booking_id_bytes env reservation_id onchain_booking_id with
      | .error m => .error m
      | .ok resolved =>
        match env.receipt_status with
        | .error e => .error e
        | .ok status =>
          if status.getD 0 ≠ 1 then .error "On-chain escrow release transaction reverted."
          else
            .ok { tx_hash := env.tx_hash
                  onchain_booking_id := resolved.2
                  event_index := event_index_of env.decode_released }

/-- Embeds `refund_reservation_escrow_onchain` from
`app/integrations/escrow_chain.py`. -/
def refund_reservation_escrow_onchain (env : ChainEnv) (chain : ChainConfig)
    (reservation_id : String) (onchain_booking_id : Option String) :
    Except String EscrowSettlementResult :=
  if !env.web3_available then .error "Missing web3 dependencies."
  else if chain.rpc_url = "" then .error "Active chain RPC URL is not configured."
  else if chain.escrow_contract_address = "" then .error "Active chain contract address is not configured."
  else if chain.signer_private_key = "" then .error "Active chain signer private key is not configured."
  else if !env.connected then .error "Unable to connect to RPC."
  else
    match env.checksum_addr chain.escrow_contract_address with
    | .error m => .error m
    | .ok _ =>
      match resolve_booking_id_bytes env reservation_id onchain_booking_id with
      | .error m => .error m
      | .ok resolved =>
        match env.receipt_status with
        | .error e => .error e
        | .ok status =>
          if status.getD 0 ≠ 1 then .error "On-chain escrow refund transaction reverted."
          else
            .ok { tx_hash := env.tx_hash
                  onchain_booking_id := resolved.2
                  event_index := event_index_of env.decode_refunded }

/-- The `state_map.get(state_index, "none")` mapping of
`read_escrow_record_onchain`. -/
def escrow_state_map (i : Int) : String :=
  if i = 0 then "none"
  else if i = 1 then "locked"
  else if i = 2 then "released"
  else if i = 3 then "refunded"
  else "none"

/-- Embeds `read_escrow_record_onchain` from
`app/integrations/escrow_chain.py`: guards (each raising the uniform
RuntimeError kind), contract-address checksum, identifier resolution,
one `escrows(bookingId)` view call, and defensive tuple decoding
(`row[4] if len(row) > 4 else 0`, `row[3] if len(row) > 3 else 0`).
The function has no blanket exception wrapper, so checksum, hex
decoding, and transport failures propagate as their own
(non-RuntimeError) kinds. -/
def read_escrow_record_onchain (env : ChainEnv) (chain : ChainConfig)
    (reservation_id : String) (onchain_booking_id : Option String) :
    Except PyErr OnchainEscrowRecord :=
  if !env.web3_available then .error (.runtimeError "Missing web3 dependencies.")
  else if chain.rpc_url = "" then .error (.runtimeError "Active chain RPC URL is not configured.")
  else if chain.escrow_contract_address = "" then .error (.runtimeError "Active chain contract address is not configured.")
  else if !env.connected then .error (.runtimeError "Unable to connect to RPC.")
  else
    match env.checksum_addr chain.escrow_contract_address with
    | .error m => .error (.otherError m)
    | .ok _ =>
      match resolve_booking_id_bytes env reservation_id onchain_booking_id with
      | .error m => .error (.otherError m)
      | .ok resolved =>
        match env.escrows_call resolved.1 with
        | .error m => .error (.otherError m)
        | .ok row =>
          .ok { booking_id := resolved.2
                state := escrow_state_map (row.getD 4 0)
                amount_wei := row.getD 3 0 }

/-! ## Shadow-write cleanup
(`clear_reservation_shadow_escrow_metadata` in
`app/integrations/supabase_client.py`) -/

/-- The four `.eq` guards of the shadow-clearing update statement. -/
def clear_guard (reservation_id chain_key expected_tx_hash : String)
    (r : ReservationRow) : Bool :=
  r.reservation_id == reservation_id &&
  r.chain_key == some chain_key &&
  r.escrow_state == some "pending_lock" &&
  r.chain_tx_hash == some expected_tx_hash

/-- The field values the update statement writes. -/
def cleared_row (r : ReservationRow) : ReservationRow :=
  { r with escrow_state := some "none"
           chain_key := none
           chain_id := none
           escrow_contract_address := none
           chain_tx_hash := none
           onchain_booking_id := none
           escrow_event_index := none }

/-- The read-back check of `clear_reservation_shadow_escrow_metadata`:
`str(row.get("escrow_state") or "").lower() == "none"` and the three
chain columns NULL. -/
def shadow_clear_verify (r : ReservationRow) : Bool :=
  pyLower (pyStrOr r.escrow_state "") == "none" &&
  r.chain_key == none &&
  r.chain_tx_hash == none &&
  r.onchain_booking_id == none

/-- Embeds `clear_reservation_shadow_escrow_metadata` from
`app/integrations/supabase_client.py`: a guarded update touching only
rows matching all four guards, then a read-back of the row by
reservation id whose verification result (not the attempt) is
returned. -/
def clear_reservation_shadow_escrow_metadata (db : List ReservationRow)
    (reservation_id chain_key expected_tx_hash : String) :
    List ReservationRow × Bool :=
  let db2 := db.map (fun r =>
    if clear_guard reservation_id chain_key expected_tx_hash r then cleared_row r else r)
  match db2.find? (fun r => r.reservation_id == reservation_id) with
  | none => (db2, false)
  | some row => (db2, shadow_clear_verify row)

/-! ## Concrete fixtures used by witnesses and counterexamples -/

/-- A Record Reader that always reports a locked on-chain record. -/
def readerLockedOk : ReaderOracle :=
  fun _ _ => .ok { booking_id := "0x01", state := "locked", amount_wei := 1 }

/-- A Record Reader that always fails with the uniform (catchable)
RuntimeError kind. -/
def readerDown : ReaderOracle :=
  fun _ _ => .error (.runtimeError "Unable to connect to RPC.")

/-- A Record Reader that always raises a non-RuntimeError exception
(e.g. a transport error inside `escrows(...).call()`). -/
def readerCrash : ReaderOracle :=
  fun _ _ => .error (.otherError "requests.exceptions.ReadTimeout")

/-- A sepolia reservation row whose local escrow state is locked. -/
def rowSepLocked1 : ReservationRow :=
  { reservation_id := "r1", escrow_state := some "locked", chain_key := some "sepolia" }

/-- A second sepolia reservation row whose local escrow state is locked. -/
def rowSepLocked2 : ReservationRow :=
  { reservation_id := "r2", escrow_state := some "locked", chain_key := some "sepolia" }

/-- A stale shadow row: pending_lock with a shadow-prefixed tx hash. -/
def rowShadowStale : ReservationRow :=
  { reservation_id := "r9"
    escrow_state := some "pending_lock"
    chain_key := some "sepolia"
    chain_id := some 11155111
    chain_tx_hash := some "shadow-r9"
    onchain_booking_id := some "0x09" }

/-- Settings whose active chain key is not a registry key and whose
allow-list enables only amoy. -/
def sWrongActiveKey : Settings :=
  { chain_active_key := "bogus", chain_allowed_keys := "amoy" }

/-- The engine summary of a concrete one-candidate run (used by
witnesses). -/
def smW1 : EscrowReconciliationSummary :=
  (build_summary {} [rowSepLocked1] readerLockedOk "sepolia" 2).toOption.getD default

/-- The endpoint response of the same concrete one-candidate run. -/
def respW1 : EscrowReconciliationResponse :=
  (get_escrow_reconciliation {} [rowSepLocked1] readerLockedOk (some "sepolia") 2 0).toOption.getD default

/-- The classification outcome of the two-row batch under the
always-RuntimeError reader (both rows skipped). -/
def smDown : EscrowReconciliationSummary :=
  (classify_rows readerDown [rowSepLocked1, rowSepLocked2] {}).toOption.getD default

/-- The monitor-scenario summary of spec §8: no mismatch, no missing,
two skipped, summary-level alert false. -/
def scenarioSummary : EscrowReconciliationSummary :=
  { total := 2, match_count := 0, mismatch := 0, missing_onchain := 0, skipped := 2, alert := false }

/-- A fully configured chain for settlement-client witnesses. -/
def chainReady : ChainConfig :=
  { key := "sepolia"
    chain_id := 11155111
    rpc_url := "https://rpc.example"
    escrow_contract_address := "0xcontract"
    guest_pass_contract_address := ""
    signer_private_key := "0xkey"
    explorer_base_url := ""
    enabled := true }

/-- A web3 environment whose transaction succeeded (receipt status 1)
but whose event decoding raises. -/
def envDecodeRaises : ChainEnv :=
  { web3_available := true
    connected := true
    keccak_bytes := fun t => "keccak:" ++ t
    to_bytes := fun h => .ok ("bytes:" ++ h)
    to_hex := fun b => "hex:" ++ b
    checksum_addr := fun a => .ok a
    tx_hash := "0xtxhash"
    receipt_status := .ok (some 1)
    decode_locked := .error "log decoding failed"
    decode_released := .error "log decoding failed"
    decode_refunded := .error "log decoding failed"
    escrows_call := fun _ => .ok [0, 0, 0, 5, 1, 0] }

/-- The happy-path body of `build_summary` (page fetch,
classification loop, final alert write), used to characterise engine
runs past the registry checks. -/
def build_core (db : List ReservationRow) (reader : ReaderOracle)
    (ck : String) (limit : Nat) : Except PyErr EscrowReconciliationSummary :=
  let page := list_reservations_for_escrow_reconciliation db ck limit 0
  match classify_rows reader page.1 { total := page.2 } with
  | .error e => .error e
  | .ok summary =>
    .ok { summary with alert := decide (0 < summary.mismatch + summary.missing_onchain) }

/-- The happy-path body of the endpoint `get_escrow_reconciliation`
for an already-resolved chain key. -/
def endpoint_core (db : List ReservationRow) (reader : ReaderOracle)
    (resolved_key : String) (limit offset : Nat) :
    Except PyErr EscrowReconciliationResponse :=
  let page := list_reservations_for_escrow_reconciliation db resolved_key limit offset
  match endpoint_rows reader page.1 ([], { total := page.2 }) with
  | .error e => .error e
  | .ok folded =>
    .ok { items := folded.1
          count := page.2
          limit := limit
          offset := offset
          has_more := decide (offset + folded.1.length < page.2)
          summary :=
            { total := folded.2.total
              match_count := folded.2.match_count
              mismatch := folded.2.mismatch
              missing_onchain := folded.2.missing_onchain
              skipped := folded.2.skipped
              alert := decide (0 < folded.2.mismatch + folded.2.missing_onchain) } }

/-! ## Per-step and per-loop lemmas for the reconciliation loops -/

theorem classify_step_ok_total (reader : ReaderOracle) (acc acc2 : EscrowReconciliationSummary)
    (row : ReservationRow) (h : classify_step reader acc row = .ok acc2) :
    acc2.total = acc.total := by
  cases hr : reader row.reservation_id row.onchain_booking_id with
  | error e =>
    cases e with
    | runtimeError m =>
      simp [classify_step, hr] at h
      rw [← h]
    | otherError m => simp [classify_step, hr] at h
  | ok onchain =>
    simp only [classify_step, hr] at h
    split_ifs at h <;> simp only [Except.ok.injEq] at h <;> rw [← h]

theorem classify_step_ok_sum (reader : ReaderOracle) (acc acc2 : EscrowReconciliationSummary)
    (row : ReservationRow) (h : classify_step reader acc row = .ok acc2) :
    sumParts acc2 = sumParts acc + 1 := by
  cases hr : reader row.reservation_id row.onchain_booking_id with
  | error e =>
    cases e with
    | runtimeError m =>
      simp [classify_step, hr] at h
      rw [← h]
      simp [sumParts]
      omega
    | otherError m => simp [classify_step, hr] at h
  | ok onchain =>
    simp only [classify_step, hr] at h
    split_ifs at h <;> simp only [Except.ok.injEq] at h <;> rw [← h] <;>
      simp [sumParts] <;> omega

theorem classify_rows_ok_total (reader : ReaderOracle) :
    ∀ (rows : List ReservationRow) (acc sm : EscrowReconciliationSummary),
      classify_rows reader rows acc = .ok sm → sm.total = acc.total
  | [], acc, sm, h => by
    simp only [classify_rows, Except.ok.injEq] at h
    rw [← h]
  | row :: rest, acc, sm, h => by
    rw [classify_rows] at h
    cases hs : classify_step reader acc row with
    | error e => rw [hs] at h; exact absurd h (by simp)
    | ok acc2 =>
      rw [hs] at h
      exact (classify_rows_ok_total reader rest acc2 sm h).trans
        (classify_step_ok_total reader acc acc2 row hs)

theorem classify_rows_ok_sum (reader : ReaderOracle) :
    ∀ (rows : List ReservationRow) (acc sm : EscrowReconciliationSummary),
      classify_rows reader rows acc = .ok sm → sumParts sm = sumParts acc + rows.length
  | [], acc, sm, h => by
    simp only [classify_rows, Except.ok.injEq] at h
    rw [← h, List.length_nil, Nat.add_zero]
  | row :: rest, acc, sm, h => by
    rw [classify_rows] at h
    cases hs : classify_step reader acc row with
    | error e => rw [hs] at h; exact absurd h (by simp)
    | ok acc2 =>
      rw [hs] at h
      have h1 := classify_rows_ok_sum reader rest acc2 sm h
      have h2 := classify_step_ok_sum reader acc acc2 row hs
      rw [h1, h2, List.length_cons]
      omega

theorem endpoint_step_ok_total (reader : ReaderOracle)
    (acc acc2 : List EscrowReconciliationItem × EscrowReconciliationSummary)
    (row : ReservationRow) (h : endpoint_step reader acc row = .ok acc2) :
    acc2.2.total = acc.2.total := by
  cases hr : reader row.reservation_id row.onchain_booking_id with
  | error e =>
    cases e with
    | runtimeError m =>
      simp only [endpoint_step, hr, Except.ok.injEq] at h
      rw [← h]
    | otherError m => simp [endpoint_step, hr] at h
  | ok onchain =>
    simp only [endpoint_step, hr] at h
    split_ifs at h <;> simp only [Except.ok.injEq] at h <;> rw [← h]

theorem endpoint_step_ok_sum (reader : ReaderOracle)
    (acc acc2 : List EscrowReconciliationItem × EscrowReconciliationSummary)
    (row : ReservationRow) (h : endpoint_step reader acc row = .ok acc2) :
    sumParts acc2.2 = sumParts acc.2 + 1 := by
  cases hr : reader row.reservation_id row.onchain_booking_id with
  | error e =>
    cases e with
    | runtimeError m =>
      simp only [endpoint_step, hr, Except.ok.injEq] at h
      rw [← h]
      simp [sumParts]
      omega
    | otherError m => simp [endpoint_step, hr] at h
  | ok onchain =>
    simp only [endpoint_step, hr] at h
    split_ifs at h <;> simp only [Except.ok.injEq] at h <;> rw [← h] <;>
      simp [sumParts] <;> omega

theorem endpoint_step_ok_items (reader : ReaderOracle)
    (acc acc2 : List EscrowReconciliationItem × EscrowReconciliationSummary)
    (row : ReservationRow) (h : endpoint_step reader acc row = .ok acc2) :
    acc2.1.length = acc.1.length + 1 := by
  cases hr : reader row.reservation_id row.onchain_booking_id with
  | error e =>
    cases e with
    | runtimeError m =>
      simp only [endpoint_step, hr, Except.ok.injEq] at h
      rw [← h]
      simp
    | otherError m => simp [endpoint_step, hr] at h
  | ok onchain =>
    simp only [endpoint_step, hr] at h
    split_ifs at h <;> simp only [Except.ok.injEq] at h <;> rw [← h] <;> simp

theorem endpoint_rows_ok_total (reader : ReaderOracle) :
    ∀ (rows : List ReservationRow)
      (acc out : List EscrowReconciliationItem × EscrowReconciliationSummary),
      endpoint_rows reader rows acc = .ok out → out.2.total = acc.2.total
  | [], acc, out, h => by
    simp only [endpoint_rows, Except.ok.injEq] at h
    rw [← h]
  | row :: rest, acc, out, h => by
    rw [endpoint_rows] at h
    cases hs : endpoint_step reader acc row with
    | error e => rw [hs] at h; exact absurd h (by simp)
    | ok acc2 =>
      rw [hs] at h
      exact (endpoint_rows_ok_total reader rest acc2 out h).trans
        (endpoint_step_ok_total reader acc acc2 row hs)

theorem endpoint_rows_ok_sum (reader : ReaderOracle) :
    ∀ (rows : List ReservationRow)
      (acc out : List EscrowReconciliationItem × EscrowReconciliationSummary),
      endpoint_rows reader rows acc = .ok out → sumParts out.2 = sumParts acc.2 + rows.length
  | [], acc, out, h => by
    simp only [endpoint_rows, Except.ok.injEq] at h
    rw [← h, List.length_nil, Nat.add_zero]
  | row :: rest, acc, out, h => by
    rw [endpoint_rows] at h
    cases hs : endpoint_step reader acc row with
    | error e => rw [hs] at h; exact absurd h (by simp)
    | ok acc2 =>
      rw [hs] at h
      have h1 := endpoint_rows_ok_sum reader rest acc2 out h
      have h2 := endpoint_step_ok_sum reader acc acc2 row hs
      rw [h1, h2, List.length_cons]
      omega

theorem endpoint_rows_ok_items (reader : ReaderOracle) :
    ∀ (rows : List ReservationRow)
      (acc out : List EscrowReconciliationItem × EscrowReconciliationSummary),
      endpoint_rows reader rows acc = .ok out → out.1.length = acc.1.length + rows.length
  | [], acc, out, h => by
    simp only [endpoint_rows, Except.ok.injEq] at h
    rw [← h, List.length_nil, Nat.add_zero]
  | row :: rest, acc, out, h => by
    rw [endpoint_rows] at h
    cases hs : endpoint_step reader acc row with
    | error e => rw [hs] at h; exact absurd h (by simp)
    | ok acc2 =>
      rw [hs] at h
      have h1 := endpoint_rows_ok_items reader rest acc2 out h
      have h2 := endpoint_step_ok_items reader acc acc2 row hs
      rw [h1, h2, List.length_cons]
      omega

/-! ## Inversion of the two summary producers -/

theorem build_summary_ok_eq (s : Settings) (db : List ReservationRow) (reader : ReaderOracle)
    (ck : String) (limit : Nat) (sm : EscrowReconciliationSummary)
    (h : build_summary s db reader ck limit = .ok sm) :
    build_core db reader ck limit = .ok sm := by
  unfold build_summary at h
  split at h
  · exact absurd h (by simp)
  · split at h
    · exact absurd h (by simp)
    · exact h

theorem get_escrow_reconciliation_ok_eq (s : Settings) (db : List ReservationRow)
    (reader : ReaderOracle) (ckOpt : Option String) (limit offset : Nat)
    (resp : EscrowReconciliationResponse)
    (h : get_escrow_reconciliation s db reader ckOpt limit offset = .ok resp) :
    endpoint_core db reader (pyLower (pyStrOr ckOpt (get_active_chain s).key)) limit offset =
      .ok resp := by
  unfold get_escrow_reconciliation at h
  dsimp only at h
  split at h
  · exact absurd h (by simp)
  · split at h
    · exact absurd h (by simp)
    · exact h

theorem build_core_ok_counts (db : List ReservationRow) (reader : ReaderOracle)
    (ck : String) (limit : Nat) (sm : EscrowReconciliationSummary)
    (h : build_core db reader ck limit = .ok sm) :
    sm.total = (db.filter (escrow_candidate ck)).length ∧
    sumParts sm = ((db.filter (escrow_candidate ck)).take limit).length := by
  unfold build_core list_reservations_for_escrow_reconciliation at h
  dsimp only at h
  rw [List.drop_zero] at h
  cases hr : classify_rows reader ((db.filter (escrow_candidate ck)).take limit)
      { total := (db.filter (escrow_candidate ck)).length } with
  | error e => rw [hr] at h; exact absurd h (by simp)
  | ok base =>
    rw [hr] at h
    simp only [Except.ok.injEq] at h
    have ht := classify_rows_ok_total reader _ _ _ hr
    have hs := classify_rows_ok_sum reader _ _ _ hr
    have h0 : sumParts ({ total := (db.filter (escrow_candidate ck)).length } :
        EscrowReconciliationSummary) = 0 := rfl
    rw [h0, Nat.zero_add] at hs
    constructor
    · rw [← h]
      exact ht
    · rw [← h]
      exact hs

theorem endpoint_core_ok_counts (db : List ReservationRow) (reader : ReaderOracle)
    (key : String) (limit offset : Nat) (resp : EscrowReconciliationResponse)
    (h : endpoint_core db reader key limit offset = .ok resp) :
    resp.summary.total = (db.filter (escrow_candidate key)).length ∧
    sumParts resp.summary = (((db.filter (escrow_candidate key)).drop offset).take limit).length := by
  unfold endpoint_core list_reservations_for_escrow_reconciliation at h
  dsimp only at h
  cases hr : endpoint_rows reader (((db.filter (escrow_candidate key)).drop offset).take limit)
      ([], { total := (db.filter (escrow_candidate key)).length }) with
  | error e => rw [hr] at h; exact absurd h (by simp)
  | ok folded =>
    rw [hr] at h
    simp only [Except.ok.injEq] at h
    have ht := endpoint_rows_ok_total reader _ _ _ hr
    have hs := endpoint_rows_ok_sum reader _ _ _ hr
    have h0 : sumParts (([], { total := (db.filter (escrow_candidate key)).length }) :
        List EscrowReconciliationItem × EscrowReconciliationSummary).2 = 0 := rfl
    rw [h0, Nat.zero_add] at hs
    constructor
    · rw [← h]
      exact ht
    · rw [← h]
      exact hs

theorem build_core_ok_alert (db : List ReservationRow) (reader : ReaderOracle)
    (ck : String) (limit : Nat) (sm : EscrowReconciliationSummary)
    (h : build_core db reader ck limit = .ok sm) :
    sm.alert = true ↔ 0 < sm.mismatch + sm.missing_onchain := by
  unfold build_core at h
  dsimp only at h
  split at h
  · exact absurd h (by simp)
  · simp only [Except.ok.injEq] at h
    rw [← h]
    simp

theorem endpoint_core_ok_alert (db : List ReservationRow) (reader : ReaderOracle)
    (key : String) (limit offset : Nat) (resp : EscrowReconciliationResponse)
    (h : endpoint_core db reader key limit offset = .ok resp) :
    resp.summary.alert = true ↔ 0 < resp.summary.mismatch + resp.summary.missing_onchain := by
  unfold endpoint_core at h
  dsimp only at h
  split at h
  · exact absurd h (by simp)
  · simp only [Except.ok.injEq] at h
    rw [← h]
    simp

/-! ## Claim theorems -/

/-- C1 counterexample: the claim that every computed summary satisfies
`match + mismatch + missingOnchain + skipped == total` fails as soon as
the candidate set is larger than the page limit, because `total` is the
exact count of all candidate rows while only the fetched page is
classified.  Concretely: two locked sepolia candidates, limit 1 — the
run classifies one row but reports `total = 2`. -/
theorem C1_counterexample :
    (build_summary {} [rowSepLocked1, rowSepLocked2] readerLockedOk "sepolia" 1).toOption.map
      (fun sm => decide (sumParts sm = sm.total)) = some false := by
  rfl

/-- C1 (amended): for every completed run, in both the engine summary
and the endpoint summary at any offset, `match + mismatch +
missingOnchain + skipped` equals the number of candidate rows in the
fetched page; and it equals the summary's `total` field exactly when
the whole candidate set fits into one page (candidate count at most
the limit, and — for the endpoint — offset 0). -/
theorem C1_sum_eq_total (s : Settings) (db : List ReservationRow) (reader : ReaderOracle)
    (ck : String) (limit offset : Nat) (sm : EscrowReconciliationSummary)
    (resp : EscrowReconciliationResponse)
    (hck : pyLower ck = ck) (hne : ck ≠ "")
    (h1 : build_summary s db reader ck limit = .ok sm)
    (h2 : get_escrow_reconciliation s db reader (some ck) limit offset = .ok resp) :
    sumParts sm = ((db.filter (escrow_candidate ck)).take limit).length ∧
    sumParts resp.summary = (((db.filter (escrow_candidate ck)).drop offset).take limit).length ∧
    ((db.filter (escrow_candidate ck)).length ≤ limit → sumParts sm = sm.total) ∧
    (offset = 0 → (db.filter (escrow_candidate ck)).length ≤ limit →
      sumParts resp.summary = resp.summary.total) := by
  have e1 := build_summary_ok_eq s db reader ck limit sm h1
  have e2 := get_escrow_reconciliation_ok_eq s db reader (some ck) limit offset resp h2
  have hkey : pyLower (pyStrOr (some ck) (get_active_chain s).key) = ck := by
    simp [pyStrOr, hne, hck]
  rw [hkey] at e2
  obtain ⟨ht1, hs1⟩ := build_core_ok_counts db reader ck limit sm e1
  obtain ⟨ht2, hs2⟩ := endpoint_core_ok_counts db reader ck limit offset resp e2
  refine ⟨hs1, hs2, ?_, ?_⟩
  · intro hfit
    rw [hs1, ht1, List.take_of_length_le hfit]
  · intro h0 hfit
    subst h0
    rw [hs2, ht2, List.drop_zero, List.take_of_length_le hfit]

/-- Witness for C1 (amended) at a concrete one-candidate run. -/
theorem C1_sum_eq_total_witness :
    sumParts smW1 = smW1.total ∧ sumParts respW1.summary = respW1.summary.total := by
  have h := C1_sum_eq_total {} [rowSepLocked1] readerLockedOk "sepolia" 2 0 smW1 respW1
    rfl (by decide) rfl rfl
  exact ⟨h.2.2.1 (by decide), h.2.2.2 rfl (by decide)⟩

/-- C2: every summary either producer computes carries
`alert == (mismatch + missingOnchain > 0)`: the alert flag is written
exactly once, from those two counters, on both the engine path and the
endpoint path, so the skipped count never raises the summary alert. -/
theorem C2_alert_definition (s : Settings) (db : List ReservationRow) (reader : ReaderOracle)
    (ck : String) (ckOpt : Option String) (limit offset : Nat)
    (sm : EscrowReconciliationSummary) (resp : EscrowReconciliationResponse)
    (h1 : build_summary s db reader ck limit = .ok sm)
    (h2 : get_escrow_reconciliation s db reader ckOpt limit offset = .ok resp) :
    (sm.alert = true ↔ 0 < sm.mismatch + sm.missing_onchain) ∧
    (resp.summary.alert = true ↔ 0 < resp.summary.mismatch + resp.summary.missing_onchain) := by
  have e1 := build_summary_ok_eq s db reader ck limit sm h1
  have e2 := get_escrow_reconciliation_ok_eq s db reader ckOpt limit offset resp h2
  exact ⟨build_core_ok_alert db reader ck limit sm e1,
         endpoint_core_ok_alert db reader (pyLower (pyStrOr ckOpt (get_active_chain s).key))
           limit offset resp e2⟩

/-- Witness for C2 at a concrete run of both producers. -/
theorem C2_alert_definition_witness :
    (smW1.alert = true ↔ 0 < smW1.mismatch + smW1.missing_onchain) ∧
    (respW1.summary.alert = true ↔ 0 < respW1.summary.mismatch + respW1.summary.missing_onchain) :=
  C2_alert_definition {} [rowSepLocked1] readerLockedOk "sepolia" (some "sepolia") 2 0
    smW1 respW1 rfl rfl

/-- C9: reconciliation is deterministic over its inputs — two engine
runs with the same chain key and limit over an unchanged database and
unchanged on-chain reader yield summaries with identical total, match,
mismatch, missingOnchain, skipped, and alert.  (The embedding makes the
engine a pure function of exactly these inputs: `_build_summary` keeps
no state between runs and builds each summary fresh.) -/
theorem C9_deterministic (s : Settings) (db : List ReservationRow) (reader : ReaderOracle)
    (ck : String) (limit : Nat) (sm1 sm2 : EscrowReconciliationSummary)
    (h1 : build_summary s db reader ck limit = .ok sm1)
    (h2 : build_summary s db reader ck limit = .ok sm2) :
    sm1.total = sm2.total ∧ sm1.match_count = sm2.match_count ∧
    sm1.mismatch = sm2.mismatch ∧ sm1.missing_onchain = sm2.missing_onchain ∧
    sm1.skipped = sm2.skipped ∧ sm1.alert = sm2.alert := by
  have h := h1.symm.trans h2
  injection h with h
  rw [h]
  exact ⟨rfl, rfl, rfl, rfl, rfl, rfl⟩

/-- Witness for C9 at a concrete repeated run. -/
theorem C9_deterministic_witness :
    smW1.total = smW1.total ∧ smW1.match_count = smW1.match_count ∧
    smW1.mismatch = smW1.mismatch ∧ smW1.missing_onchain = smW1.missing_onchain ∧
    smW1.skipped = smW1.skipped ∧ smW1.alert = smW1.alert :=
  C9_deterministic {} [rowSepLocked1] readerLockedOk "sepolia" 2 smW1 smW1 rfl rfl

/-- C3: after a completed run, `alert_active` follows the monitor
rules — on success it is true exactly when the summary mismatch,
missing-on-chain, or skipped count meets or exceeds its configured
threshold (so with thresholds 1/1/1 a summary of 0/0/2 raises
`alert_active` although the summary-level `alert` flag is false), and
`complete_failure` sets `running = false`, increments
`consecutive_failures`, records the error message, and unconditionally
sets `alert_active = true`. -/
theorem C3_monitor_alert_rules (st : MonitorState) (now : String) (d : Int)
    (sm : EscrowReconciliationSummary) (e : String) :
    ((complete_success now d sm st).alert_active = true ↔
      ((sm.mismatch : Int) ≥ st.alert_thresholds.mismatch ∨
       (sm.missing_onchain : Int) ≥ st.alert_thresholds.missing_onchain ∨
       (sm.skipped : Int) ≥ st.alert_thresholds.skipped)) ∧
    ((complete_failure now d e st).running = false ∧
     (complete_failure now d e st).consecutive_failures = st.consecutive_failures + 1 ∧
     (complete_failure now d e st).last_error = some e ∧
     (complete_failure now d e st).alert_active = true) ∧
    ((complete_success now d scenarioSummary (monitor_init {})).alert_active = true ∧
     scenarioSummary.alert = false) := by
  refine ⟨?_, ⟨rfl, rfl, rfl, rfl⟩, rfl, rfl⟩
  simp [complete_success, Bool.or_eq_true, decide_eq_true_eq, or_assoc]

/-- C4 counterexample: the loops catch only the uniform RuntimeError
kind (`except RuntimeError` in `_build_summary` and in the endpoint);
a Record Reader failure of any other kind — e.g. a transport error
raised inside `escrows(...).call()` after `is_connected()` passed —
is not caught, so with such a failure on the first of two bookings the
whole batch aborts and the second booking is never classified, in both
producers.  This refutes "fails for any reason ... never aborts the
batch". -/
theorem C4_counterexample :
    build_summary {} [rowSepLocked1, rowSepLocked2] readerCrash "sepolia" 5 =
      .error (.otherError "requests.exceptions.ReadTimeout") ∧
    get_escrow_reconciliation {} [rowSepLocked1, rowSepLocked2] readerCrash
      (some "sepolia") 5 0 =
      .error (.otherError "requests.exceptions.ReadTimeout") :=
  ⟨rfl, rfl⟩

/-- C4 (amended): inside a reconciliation batch, a Record Reader
failure of the uniform RuntimeError kind — the kind
`read_escrow_record_onchain` itself raises (missing dependency,
missing configuration, unreachable RPC) — classifies that booking as
skipped (and, on the endpoint path, emits one item with result
"skipped") and the loop continues over the remaining bookings, so
every row of the page is classified; a reader exception of any other
kind escapes the loops' `except RuntimeError` and aborts the batch
(see the counterexample). -/
theorem C4_runtime_error_skips (reader : ReaderOracle)
    (acc : EscrowReconciliationSummary)
    (accE : List EscrowReconciliationItem × EscrowReconciliationSummary)
    (row : ReservationRow) (rest : List ReservationRow) (m : String)
    (hfail : reader row.reservation_id row.onchain_booking_id = .error (.runtimeError m)) :
    (classify_rows reader (row :: rest) acc =
        classify_rows reader rest { acc with skipped := acc.skipped + 1 }) ∧
    (∀ sm, classify_rows reader (row :: rest) acc = .ok sm →
        sumParts sm = sumParts acc + (rest.length + 1)) ∧
    (∃ item : EscrowReconciliationItem, item.result = "skipped" ∧
        endpoint_step reader accE row =
          .ok (accE.1 ++ [item], { accE.2 with skipped := accE.2.skipped + 1 })) ∧
    (∀ out, endpoint_rows reader (row :: rest) accE = .ok out →
        out.1.length = accE.1.length + (rest.length + 1)) := by
  have hstep : classify_step reader acc row = .ok { acc with skipped := acc.skipped + 1 } := by
    simp [classify_step, hfail]
  refine ⟨?_, ?_, ?_, ?_⟩
  · rw [classify_rows, hstep]
  · intro sm h
    have hsum := classify_rows_ok_sum reader (row :: rest) acc sm h
    rw [hsum, List.length_cons]
  · exact ⟨{ reservation_id := row.reservation_id
             reservation_code := row.reservation_code
             db_escrow_state := pyStrOr row.escrow_state "none"
             chain_key := row.chain_key
             chain_id := row.chain_id
             chain_tx_hash := row.chain_tx_hash
             onchain_booking_id := pyTruthyOpt row.onchain_booking_id
             onchain_state := none
             onchain_amount_wei := none
             result := "skipped"
             reason := some m },
           rfl, by simp [endpoint_step, hfail]⟩
  · intro out h
    have hlen := endpoint_rows_ok_items reader (row :: rest) accE out h
    rw [hlen, List.length_cons]

/-- Witness for C4 (amended): a reader that always fails with the
RuntimeError kind, over a two-row batch — the loop completes and both
rows end up classified (skipped), so the four counters sum to 2. -/
theorem C4_runtime_error_skips_witness :
    sumParts smDown = sumParts ({} : EscrowReconciliationSummary) + (1 + 1) :=
  (C4_runtime_error_skips readerDown {} ([], {}) rowSepLocked1 [rowSepLocked2]
    "Unable to connect to RPC." rfl).2.1 smDown rfl

/-- C6: `run_escrow_reconciliation_once_now` is a total function of its
inputs: whatever the reconciliation engine produces (a summary or any
failure, all engine exceptions being caught by the `except Exception`
arm), the run is routed to `complete_success` or `complete_failure` on
top of `begin_run`, and the resulting snapshot is returned to the
caller — never an exception. -/
theorem C6_run_once_total (s : Settings) (db : List ReservationRow) (reader : ReaderOracle)
    (now : String) (d : Int) (st : MonitorState) :
    (∃ sm, build_summary s db reader (resolve_chain_key s) s.escrow_reconciliation_limit = .ok sm ∧
        run_escrow_reconciliation_once_now s db reader now d st =
          complete_success now d sm (begin_run now (resolve_chain_key s) st)) ∨
    (∃ e, build_summary s db reader (resolve_chain_key s) s.escrow_reconciliation_limit = .error e ∧
        run_escrow_reconciliation_once_now s db reader now d st =
          complete_failure now d e.message (begin_run now (resolve_chain_key s) st)) := by
  cases h : build_summary s db reader (resolve_chain_key s) s.escrow_reconciliation_limit with
  | ok sm =>
    refine Or.inl ⟨sm, rfl, ?_⟩
    unfold run_escrow_reconciliation_once_now
    dsimp only
    rw [h]
  | error e =>
    refine Or.inr ⟨e, rfl, ?_⟩
    unfold run_escrow_reconciliation_once_now
    dsimp only
    rw [h]

/-- C5 counterexample: with allow-list "amoy" and the invalid active
key "bogus", the configured key misses the registry, yet
`get_active_chain` returns the sepolia entry — which is disabled — not
the first enabled network (amoy).  The spec wording "first enabled
network" does not match the code, which falls back to the registry
first entry `sepolia` unconditionally. -/
theorem C5_counterexample :
    registry_lookup (get_chain_registry sWrongActiveKey)
        (pyLower (pyStrip (pyOrStr sWrongActiveKey.chain_active_key ""))) = none ∧
    (get_active_chain sWrongActiveKey).enabled = false ∧
    first_enabled_chain (get_chain_registry sWrongActiveKey) ≠
      some (get_active_chain sWrongActiveKey) := by
  refine ⟨rfl, rfl, ?_⟩
  decide

/-- C5 (amended): if the configured active chain key is not a valid key
of the chain registry, `get_active_chain` returns the registry's
sepolia entry (its first network) regardless of that entry's enabled
flag; it always returns exactly one `ChainConfig`. -/
theorem C5_invalid_key_falls_back_to_sepolia (s : Settings)
    (h : registry_lookup (get_chain_registry s)
        (pyLower (pyStrip (pyOrStr s.chain_active_key ""))) = none) :
    ∃ c : ChainConfig, registry_lookup (get_chain_registry s) "sepolia" = some c ∧
      get_active_chain s = c ∧ c.key = "sepolia" := by
  obtain ⟨c, hc1, hc2⟩ :
      ∃ c, registry_lookup (get_chain_registry s) "sepolia" = some c ∧ c.key = "sepolia" :=
    ⟨_, rfl, rfl⟩
  refine ⟨c, hc1, ?_, hc2⟩
  unfold get_active_chain
  dsimp only
  rw [h, hc1]

/-- Witness for C5 (amended) at the concrete misconfigured settings. -/
theorem C5_invalid_key_falls_back_to_sepolia_witness :
    ∃ c : ChainConfig, registry_lookup (get_chain_registry sWrongActiveKey) "sepolia" = some c ∧
      get_active_chain sWrongActiveKey = c ∧ c.key = "sepolia" :=
  C5_invalid_key_falls_back_to_sepolia sWrongActiveKey rfl

/-- C7: when the receipt reports success (status 1), a failure while
decoding the emitted event logs does not fail the settlement operation:
both `lock` and `release` still return a result carrying the
transaction hash and the resolved on-chain booking id, with
`event_index` falling back to 0, and no error is raised. -/
theorem C7_decode_failure_fallback (env : ChainEnv) (chain : ChainConfig)
    (rid : String) (obid : Option String) (addr : String) (bid : String × String)
    (eL eR : String)
    (hw : env.web3_available = true) (hrpc : chain.rpc_url ≠ "")
    (haddr : chain.escrow_contract_address ≠ "") (hkey : chain.signer_private_key ≠ "")
    (hconn : env.connected = true)
    (hcs : env.checksum_addr chain.escrow_contract_address = .ok addr)
    (hres : resolve_booking_id_bytes env rid obid = .ok bid)
    (hstatus : env.receipt_status = .ok (some 1))
    (hdl : env.decode_locked = .error eL) (hdr : env.decode_released = .error eR) :
    lock_reservation_escrow_onchain env chain rid =
      .ok { tx_hash := env.tx_hash
            onchain_booking_id := env.to_hex (env.keccak_bytes rid)
            event_index := 0 } ∧
    release_reservation_escrow_onchain env chain rid obid =
      .ok { tx_hash := env.tx_hash
            onchain_booking_id := bid.2
            event_index := 0 } := by
  constructor
  · unfold lock_reservation_escrow_onchain
    simp [hw, hrpc, haddr, hkey, hconn, hcs, hstatus, event_index_of, hdl]
  · unfold release_reservation_escrow_onchain
    simp [hw, hrpc, haddr, hkey, hconn, hcs, hres, hstatus, event_index_of, hdr]

/-- Witness for C7: a concrete environment whose transaction succeeded
but whose event decoding raises. -/
theorem C7_decode_failure_fallback_witness :
    lock_reservation_escrow_onchain envDecodeRaises chainReady "res-1" =
      .ok { tx_hash := "0xtxhash", onchain_booking_id := "hex:keccak:res-1", event_index := 0 } ∧
    release_reservation_escrow_onchain envDecodeRaises chainReady "res-1" (some "0xdeadBEEF") =
      .ok { tx_hash := "0xtxhash", onchain_booking_id := "0xdeadbeef", event_index := 0 } :=
  C7_decode_failure_fallback envDecodeRaises chainReady "res-1" (some "0xdeadBEEF")
    "0xcontract" ("bytes:0xdeadBEEF", "0xdeadbeef") "log decoding failed" "log decoding failed"
    rfl (by decide) (by decide) (by decide) rfl rfl rfl rfl rfl rfl

/-- C8: `clear_reservation_shadow_escrow_metadata` touches a row only
when its chain key, pending_lock state, and transaction hash all match
exactly; its boolean result is the read-back verification of the
post-write database (state none, chain fields cleared), not the mere
write attempt; in particular a pending_lock row whose transaction hash
was changed by another process is left untouched and reported false,
while an exactly matching row is cleared and reported true. -/
theorem C8_clear_shadow_guarded :
    (∀ (r : ReservationRow) (ck etx : String),
        r.escrow_state = some "pending_lock" → r.chain_tx_hash ≠ some etx →
        clear_reservation_shadow_escrow_metadata [r] r.reservation_id ck etx = ([r], false)) ∧
    (∀ (rid ck etx : String) (r : ReservationRow),
        clear_guard rid ck etx r = true →
        r.reservation_id = rid ∧ r.chain_key = some ck ∧
        r.escrow_state = some "pending_lock" ∧ r.chain_tx_hash = some etx) ∧
    (∀ (db : List ReservationRow) (rid ck etx : String),
        (clear_reservation_shadow_escrow_metadata db rid ck etx).2 =
          (match (clear_reservation_shadow_escrow_metadata db rid ck etx).1.find?
              (fun x => x.reservation_id == rid) with
           | none => false
           | some row => shadow_clear_verify row)) ∧
    (∀ (r : ReservationRow) (ck etx : String),
        r.chain_key = some ck → r.escrow_state = some "pending_lock" →
        r.chain_tx_hash = some etx →
        clear_reservation_shadow_escrow_metadata [r] r.reservation_id ck etx =
          ([cleared_row r], true)) := by
  refine ⟨?_, ?_, ?_, ?_⟩
  · intro r ck etx hstate htx
    have hguard : clear_guard r.reservation_id ck etx r = false := by
      simp [clear_guard, htx]
    unfold clear_reservation_shadow_escrow_metadata
    simp [hguard, List.find?, shadow_clear_verify, hstate, pyStrOr, pyLower]
  · intro rid ck etx r hguard
    simp only [clear_guard, Bool.and_eq_true, beq_iff_eq] at hguard
    tauto
  · intro db rid ck etx
    unfold clear_reservation_shadow_escrow_metadata
    dsimp only
    split
    · rename_i hf
      rw [hf]
    · rename_i row hf
      rw [hf]
  · intro r ck etx hck hstate htx
    have hguard : clear_guard r.reservation_id ck etx r = true := by
      simp [clear_guard, hck, hstate, htx]
    unfold clear_reservation_shadow_escrow_metadata
    simp [hguard, List.find?, cleared_row, shadow_clear_verify, pyStrOr, pyLower]

/-- Witness for C8: a stale shadow row is reported false under a
foreign transaction hash and cleared (reported true) under its own. -/
theorem C8_clear_shadow_guarded_witness :
    clear_reservation_shadow_escrow_metadata [rowShadowStale] rowShadowStale.reservation_id
      "sepolia" "0xother" = ([rowShadowStale], false) ∧
    clear_reservation_shadow_escrow_metadata [rowShadowStale] rowShadowStale.reservation_id
      "sepolia" "shadow-r9" = ([cleared_row rowShadowStale], true) :=
  ⟨C8_clear_shadow_guarded.1 rowShadowStale "sepolia" "0xother" rfl (by decide),
   C8_clear_shadow_guarded.2.2.2 rowShadowStale "sepolia" "shadow-r9" rfl rfl rfl⟩

/-- C10: in release, refund, and read, a caller-supplied on-chain
booking id is used directly only when it is truthy and starts with
"0x" (and is then echoed back lower-cased, provided its hex decoding
succeeds; a malformed 0x-prefixed value makes `w3.to_bytes` raise and
the error propagates — it is neither used nor silently replaced); any
supplied value lacking the prefix is silently ignored and the id is
recomputed as the keccak hash of the reservation id; and `lock` always
derives the id by hashing, never from a supplied value. -/
theorem C10_booking_id_resolution (env : ChainEnv) (chain : ChainConfig) (rid : String) :
    (∀ (s b : String), s ≠ "" → pyStartsWith s "0x" = true → env.to_bytes s = .ok b →
        resolve_booking_id_bytes env rid (some s) = .ok (b, pyLower s)) ∧
    (∀ (s m : String), s ≠ "" → pyStartsWith s "0x" = true → env.to_bytes s = .error m →
        resolve_booking_id_bytes env rid (some s) = .error m) ∧
    (∀ s : String, pyStartsWith s "0x" = false →
        resolve_booking_id_bytes env rid (some s) =
          .ok (env.keccak_bytes rid, env.to_hex (env.keccak_bytes rid))) ∧
    (resolve_booking_id_bytes env rid none =
        .ok (env.keccak_bytes rid, env.to_hex (env.keccak_bytes rid))) ∧
    (∀ res : EscrowLockResult, lock_reservation_escrow_onchain env chain rid = .ok res →
        res.onchain_booking_id = env.to_hex (env.keccak_bytes rid)) ∧
    (∀ (obid : Option String) (res : EscrowSettlementResult),
        release_reservation_escrow_onchain env chain rid obid = .ok res →
        ∃ bid, resolve_booking_id_bytes env rid obid = .ok bid ∧
          res.onchain_booking_id = bid.2) ∧
    (∀ (obid : Option String) (res : EscrowSettlementResult),
        refund_reservation_escrow_onchain env chain rid obid = .ok res →
        ∃ bid, resolve_booking_id_bytes env rid obid = .ok bid ∧
          res.onchain_booking_id = bid.2) ∧
    (∀ (obid : Option String) (rec : OnchainEscrowRecord),
        read_escrow_record_onchain env chain rid obid = .ok rec →
        ∃ bid, resolve_booking_id_bytes env rid obid = .ok bid ∧
          rec.booking_id = bid.2) := by
  refine ⟨?_, ?_, ?_, rfl, ?_, ?_, ?_, ?_⟩
  · intro s b hne hpre htb
    simp [resolve_booking_id_bytes, hne, hpre, htb]
  · intro s m hne hpre htb
    simp [resolve_booking_id_bytes, hne, hpre, htb]
  · intro s hpre
    simp [resolve_booking_id_bytes, hpre]
  · intro res h
    unfold lock_reservation_escrow_onchain at h
    repeat' split at h
    all_goals cases h
    all_goals rfl
  · intro obid res h
    unfold release_reservation_escrow_onchain at h
    repeat' split at h
    all_goals cases h
    all_goals exact ⟨_, by assumption, rfl⟩
  · intro obid res h
    unfold refund_reservation_escrow_onchain at h
    repeat' split at h
    all_goals cases h
    all_goals exact ⟨_, by assumption, rfl⟩
  · intro obid rec h
    unfold read_escrow_record_onchain at h
    repeat' split at h
    all_goals cases h
    all_goals exact ⟨_, by assumption, rfl⟩

/-- Witness for C10 at concrete supplied identifiers, including a
refund whose result echoes the lower-cased supplied id. -/
theorem C10_booking_id_resolution_witness :
    resolve_booking_id_bytes envDecodeRaises "res-1" (some "0xAB") =
      .ok ("bytes:0xAB", "0xab") ∧
    resolve_booking_id_bytes envDecodeRaises "res-1" (some "no-prefix-id") =
      .ok ("keccak:res-1", "hex:keccak:res-1") ∧
    (∃ bid, resolve_booking_id_bytes envDecodeRaises "res-1" (some "0xCD") = .ok bid ∧
        "0xcd" = bid.2) :=
  ⟨(C10_booking_id_resolution envDecodeRaises chainReady "res-1").1 "0xAB" "bytes:0xAB"
     (by decide) rfl rfl,
   (C10_booking_id_resolution envDecodeRaises chainReady "res-1").2.2.1 "no-prefix-id" rfl,
   (C10_booking_id_resolution envDecodeRaises chainReady "res-1").2.2.2.2.2.2.1 (some "0xCD")
     { tx_hash := "0xtxhash", onchain_booking_id := "0xcd", event_index := 0 } rfl⟩
